import Mathlib

/-!
Shallow embedding of the blogicum application core (blog/views.py,
blog/models.py, blog/forms.py) and proofs about its visibility,
listing and authorization logic.

Rows of the relational store are structures; a queryset is a list of
rows; timestamps are integers; the current wall-clock time is an
explicit parameter. Django ORM filter chains become list filters,
ORDER BY becomes an insertion sort by the ordering key, and
get_object_or_404 becomes an Option result where none is NotFound.
-/

namespace Blogicum

/-- Category row (blog/models.py, class Category): id is the primary key. -/
structure Category where
  id : Nat
  title : String
  description : String
  slug : String
  is_published : Bool
  created_at : Int
deriving DecidableEq

/-- Location row (blog/models.py, class Location). -/
structure Location where
  id : Nat
  name : String
  is_published : Bool
  created_at : Int
deriving DecidableEq

/-- Post row (blog/models.py, class Post). The author field is a User
primary key; location and category are nullable foreign keys
(on_delete SET_NULL), held as Option of the referenced primary key. -/
structure Post where
  id : Nat
  title : String
  text : String
  pub_date : Int
  author : Nat
  location : Option Nat
  category : Option Nat
  image : String
  is_published : Bool
  created_at : Int
deriving DecidableEq

/-- Comment row (blog/models.py, class Comment): post and author are
required foreign keys; is_published has model default true. -/
structure Comment where
  id : Nat
  text : String
  post : Nat
  created_at : Int
  author : Nat
  is_published : Bool
deriving DecidableEq

/-- User row of the auth collaborator: a stable identity plus username. -/
structure User where
  id : Nat
  username : String
deriving DecidableEq

/-- The relational store: one table per model. -/
structure DB where
  users : List User
  categories : List Category
  locations : List Location
  posts : List Post
  comments : List Comment
deriving DecidableEq

/-- The request identity: request.user is either anonymous or an
authenticated user, compared by primary key. -/
inductive Viewer where
  | anonymous : Viewer
  | user (id : Nat) : Viewer
deriving DecidableEq

/-- Django lookup category__is_published=True on the Post queryset:
the LEFT JOIN on the nullable category foreign key followed by
WHERE category.is_published. A null category, or a dangling id,
produces no joined row, so the WHERE clause rejects the post. -/
def category_join_published (db : DB) (p : Post) : Bool :=
  match p.category with
  | none => false
  | some cid =>
    match db.categories.find? (fun c => c.id == cid) with
    | none => false
    | some c => c.is_published

/-- Row predicate of PublishedPostsMixin.filter_published_posts
(blog/views.py lines 29-35): is_published=True,
pub_date__lte=timezone.now(), category__is_published=True. -/
def published_post_pred (db : DB) (now : Int) (p : Post) : Bool :=
  p.is_published && decide (p.pub_date ≤ now) && category_join_published db p

/-- PublishedPostsMixin.filter_published_posts applied to a queryset. -/
def filter_published_posts (db : DB) (now : Int) (qs : List Post) : List Post :=
  qs.filter (published_post_pred db now)

/-- ORDER BY pub_date DESC, the ordering of order_by applied in
get_base_queryset: newest publication date first. -/
def byNewest (a b : Post) : Prop := b.pub_date ≤ a.pub_date

instance : DecidableRel byNewest := fun a b => inferInstanceAs (Decidable (b.pub_date ≤ a.pub_date))

instance : IsTotal Post byNewest := ⟨fun a b => le_total b.pub_date a.pub_date⟩

instance : IsTrans Post byNewest := ⟨fun _ _ _ h h2 => le_trans h2 h⟩

/-- ORDER BY created_at ascending for comment lists (oldest first). -/
def byOldestComment (a b : Comment) : Prop := a.created_at ≤ b.created_at

instance : DecidableRel byOldestComment := fun a b => inferInstanceAs (Decidable (a.created_at ≤ b.created_at))

instance : IsTotal Comment byOldestComment := ⟨fun a b => le_total a.created_at b.created_at⟩

instance : IsTrans Comment byOldestComment := ⟨fun _ _ _ h h2 => le_trans h h2⟩

/-- Count of the comments relation for one post row: the
comment_count=Count(comments) annotation of
PublishedPostsMixin.apply_common_annotations (blog/views.py lines
21-27). Count with no filter argument counts every joined Comment
row, published or not. -/
def comment_count (db : DB) (p : Post) : Nat :=
  (db.comments.filter (fun c => c.post == p.id)).length

/-- IndexView queryset (blog/views.py lines 49-53 via
PublishedPostsMixin.get_queryset, lines 43-46): every post, filtered
by filter_published_posts, ordered newest first. The viewer parameter
is the request user, which this view never consults. -/
def index_listing (db : DB) (_v : Viewer) (now : Int) : List Post :=
  List.insertionSort byNewest (filter_published_posts db now db.posts)

/-- Annotated index rows: each listed post paired with its
comment_count annotation. -/
def index_page (db : DB) (v : Viewer) (now : Int) : List (Post × Nat) :=
  (index_listing db v now).map (fun p => (p, comment_count db p))

/-- CategoryPostsView.get_category (blog/views.py lines 114-120):
get_object_or_404(Category, is_published=True, slug=slug); none is
the NotFound outcome. -/
def get_category (db : DB) (slug : String) : Option Category :=
  db.categories.find? (fun c => c.is_published && c.slug == slug)

/-- CategoryPostsView.get_queryset (blog/views.py lines 122-131): the
published filter, then filter(category=category); NotFound when
get_category raises. -/
def category_listing (db : DB) (now : Int) (slug : String) : Option (List Post) :=
  match get_category db slug with
  | none => none
  | some cat =>
    some (List.insertionSort byNewest
      ((filter_published_posts db now db.posts).filter
        (fun p => p.category == some cat.id)))

/-- Annotated category rows. -/
def category_page (db : DB) (now : Int) (slug : String) : Option (List (Post × Nat)) :=
  (category_listing db now slug).map (fun l => l.map (fun p => (p, comment_count db p)))

/-- Does request.user equal the profile user? AnonymousUser never
equals a User row; an authenticated viewer matches by primary key. -/
def viewer_matches (v : Viewer) (u : User) : Bool :=
  match v with
  | Viewer.anonymous => false
  | Viewer.user uid => uid == u.id

/-- ProfileView.get_queryset (blog/views.py lines 286-296): resolve
the user by username or NotFound; take user_profile.posts.all(); keep
the published filter only when the viewer is not the profile owner;
order newest first. -/
def profile_listing (db : DB) (v : Viewer) (now : Int) (username : String) :
    Option (List Post) :=
  match db.users.find? (fun u => u.username == username) with
  | none => none
  | some u =>
    let qs := db.posts.filter (fun p => p.author == u.id)
    let qs := if viewer_matches v u then qs else filter_published_posts db now qs
    some (List.insertionSort byNewest qs)

/-- Annotated profile rows. -/
def profile_page (db : DB) (v : Viewer) (now : Int) (username : String) :
    Option (List (Post × Nat)) :=
  (profile_listing db v now username).map (fun l => l.map (fun p => (p, comment_count db p)))

/-- Lookup of a post row by primary key, as get_object_or_404(Post, pk=pid). -/
def findPost (db : DB) (pid : Nat) : Option Post :=
  db.posts.find? (fun p => p.id == pid)

/-- PostDetailView.get_queryset followed by DetailView.get_object
(blog/views.py lines 68-87). An authenticated viewer first resolves
the post by pk (404 when absent); the author then reads from the
unfiltered queryset; every other request reads from the queryset
filtered by the published predicate, so an invisible post is 404, the
same outcome as a missing one. -/
def post_detail (db : DB) (v : Viewer) (now : Int) (pid : Nat) : Option Post :=
  match v with
  | Viewer.user uid =>
    match findPost db pid with
    | none => none
    | some post =>
      if post.author == uid then
        db.posts.find? (fun p => p.id == pid)
      else
        (db.posts.filter (published_post_pred db now)).find? (fun p => p.id == pid)
  | Viewer.anonymous =>
    (db.posts.filter (published_post_pred db now)).find? (fun p => p.id == pid)

/-- Comment list of PostDetailView.get_context_data (blog/views.py
lines 89-104): self.object.comments.filter(is_published=True)
ordered by created_at ascending. -/
def detail_comments (db : DB) (post : Post) : List Comment :=
  List.insertionSort byOldestComment
    (db.comments.filter (fun c => c.post == post.id && c.is_published))

/-- The full detail response: the resolved post together with its
visible comment list, or NotFound. -/
def post_detail_page (db : DB) (v : Viewer) (now : Int) (pid : Nat) :
    Option (Post × List Comment) :=
  match post_detail db v now pid with
  | none => none
  | some post => some (post, detail_comments db post)

/-- Outcome of a request to a mutating view. -/
inductive MutateOutcome where
  | redirectLogin : MutateOutcome
  | redirectPostDetail (post_id : Nat) : MutateOutcome
  | forbidden : MutateOutcome
  | notFound : MutateOutcome
  | proceed (entity_id : Nat) : MutateOutcome
deriving DecidableEq

/-- Submitted data of PostForm (blog/forms.py lines 10-22): every
model field except the excluded author and created_at, so there is no
author field a client could fill. -/
structure PostFormData where
  title : String
  text : String
  pub_date : Int
  location : Option Nat
  category : Option Nat
  image : String
  is_published : Bool
deriving DecidableEq

/-- Submitted data of CommentForm (blog/forms.py lines 25-42): the
Meta fields tuple holds only text. -/
structure CommentFormData where
  text : String
deriving DecidableEq

/-- ModelForm save on an existing Post instance: the form fields
overwrite the instance, the excluded author and created_at fields and
the primary key are untouched. -/
def applyPostForm (fd : PostFormData) (p : Post) : Post :=
  { p with
    title := fd.title
    text := fd.text
    pub_date := fd.pub_date
    location := fd.location
    category := fd.category
    image := fd.image
    is_published := fd.is_published }

/-- PostCreateView (blog/views.py lines 145-162): LoginRequiredMixin
redirects an anonymous request to login; form_valid stores
form.instance.author = request.user, so the author is the session
identity and every other stored field comes from the form; created_at
is auto_now_add. -/
def post_create (db : DB) (v : Viewer) (now : Int) (fd : PostFormData) (newId : Nat) :
    MutateOutcome × DB :=
  match v with
  | Viewer.anonymous => (MutateOutcome.redirectLogin, db)
  | Viewer.user uid =>
    let p : Post :=
      { id := newId
        title := fd.title
        text := fd.text
        pub_date := fd.pub_date
        author := uid
        location := fd.location
        category := fd.category
        image := fd.image
        is_published := fd.is_published
        created_at := now }
    (MutateOutcome.proceed newId, { db with posts := db.posts ++ [p] })

/-- PostUpdateView (blog/views.py lines 165-187): LoginRequiredMixin
sends an anonymous request to login via the overridden
handle_no_permission; test_func resolves the post (404 when absent)
and compares its author with request.user; a failing test redirects
to the post detail page of the requested post_id; the author edits
through PostForm. -/
def post_update (db : DB) (v : Viewer) (pid : Nat) (fd : PostFormData) :
    MutateOutcome × DB :=
  match v with
  | Viewer.anonymous => (MutateOutcome.redirectLogin, db)
  | Viewer.user uid =>
    match findPost db pid with
    | none => (MutateOutcome.notFound, db)
    | some post =>
      if post.author == uid then
        (MutateOutcome.proceed pid,
          { db with posts := db.posts.map (fun q => if q.id == pid then applyPostForm fd q else q) })
      else
        (MutateOutcome.redirectPostDetail pid, db)

/-- PostDeleteView (blog/views.py lines 190-210): same mixins as the
update view but with the default handle_no_permission, so an
anonymous request is redirected to login while an authenticated
viewer failing test_func gets PermissionDenied (HTTP 403); deleting
cascades to the comments of the post (on_delete CASCADE). -/
def post_delete (db : DB) (v : Viewer) (pid : Nat) : MutateOutcome × DB :=
  match v with
  | Viewer.anonymous => (MutateOutcome.redirectLogin, db)
  | Viewer.user uid =>
    match findPost db pid with
    | none => (MutateOutcome.notFound, db)
    | some post =>
      if post.author == uid then
        (MutateOutcome.proceed pid,
          { db with
            posts := db.posts.filter (fun q => !(q.id == pid))
            comments := db.comments.filter (fun c => !(c.post == pid)) })
      else
        (MutateOutcome.forbidden, db)

/-- CommentCreateView (blog/views.py lines 213-233): login required;
get_post_object resolves the post or 404; form_valid stores
form.instance.author = request.user and form.instance.post; the form
supplies only text, so is_published takes the Comment model default
true and created_at is auto_now_add. -/
def comment_create (db : DB) (v : Viewer) (now : Int) (pid : Nat)
    (fd : CommentFormData) (newId : Nat) : MutateOutcome × DB :=
  match v with
  | Viewer.anonymous => (MutateOutcome.redirectLogin, db)
  | Viewer.user uid =>
    match findPost db pid with
    | none => (MutateOutcome.notFound, db)
    | some _ =>
      let c : Comment :=
        { id := newId
          text := fd.text
          post := pid
          created_at := now
          author := uid
          is_published := true }
      (MutateOutcome.proceed newId, { db with comments := db.comments ++ [c] })

/-- Is the viewer the authenticated author of the post? The
comparison request.user == post.author of the detail and mutation
views; an anonymous request never matches. -/
def viewer_is_author (v : Viewer) (p : Post) : Bool :=
  match v with
  | Viewer.anonymous => false
  | Viewer.user uid => p.author == uid

/-- Visibility predicate as the specification text words it (spec
section 4.1, public branch): is_published, pub_date up to now, and
category null OR category published. Written from the spec words for
comparison against the implemented published_post_pred. -/
def spec_public_visible (db : DB) (now : Int) (p : Post) : Bool :=
  p.is_published && decide (p.pub_date ≤ now) &&
    (p.category.isNone || category_join_published db p)

/-- Exactness of a comment_count annotation on a listed row: the
count equals the number of comment rows referencing the post, and
splits as published plus unpublished rows. -/
def exact_comment_count (db : DB) (pr : Post × Nat) : Prop :=
  pr.2 = (db.comments.filter (fun c => c.post == pr.1.id)).length ∧
  pr.2 = (db.comments.filter (fun c => c.post == pr.1.id && c.is_published)).length +
         (db.comments.filter (fun c => c.post == pr.1.id && !c.is_published)).length

/-! Concrete fixture rows used by counterexamples and witnesses. -/

/-- Published category. -/
def exCat1 : Category :=
  { id := 1, title := "Tech", description := "d", slug := "tech",
    is_published := true, created_at := 0 }

/-- Unpublished category with a resolvable slug. -/
def exCat2 : Category :=
  { id := 2, title := "Hidden", description := "d", slug := "hidden",
    is_published := false, created_at := 0 }

/-- Unpublished location. -/
def exLoc1 : Location :=
  { id := 1, name := "Lake", is_published := false, created_at := 0 }

/-- User with id 1. -/
def exAlice : User := { id := 1, username := "alice" }

/-- User with id 2. -/
def exBob : User := { id := 2, username := "bob" }

/-- Published past-dated post of user 1 in the published category,
tagged with the unpublished location. -/
def exP1 : Post :=
  { id := 1, title := "p1", text := "t", pub_date := 5, author := 1,
    location := some 1, category := some 1, image := "",
    is_published := true, created_at := 0 }

/-- Published future-dated post of user 1 (pub_date 100, now 10). -/
def exP2 : Post :=
  { id := 2, title := "p2", text := "t", pub_date := 100, author := 1,
    location := none, category := some 1, image := "",
    is_published := true, created_at := 0 }

/-- Published past-dated post of user 1 with a null category. -/
def exP3 : Post :=
  { id := 3, title := "p3", text := "t", pub_date := 5, author := 1,
    location := none, category := none, image := "",
    is_published := true, created_at := 0 }

/-- Unpublished post of user 2. -/
def exP4 : Post :=
  { id := 4, title := "p4", text := "t", pub_date := 3, author := 2,
    location := none, category := some 1, image := "",
    is_published := false, created_at := 0 }

/-- Published comment on post 1 by user 2. -/
def exC1 : Comment :=
  { id := 1, text := "c1", post := 1, created_at := 7, author := 2,
    is_published := true }

/-- Unpublished comment on post 1 by user 1. -/
def exC2 : Comment :=
  { id := 2, text := "c2", post := 1, created_at := 6, author := 1,
    is_published := false }

/-- Fixture store with two users, two categories, four posts and two
comments. -/
def exDb : DB :=
  { users := [exAlice, exBob], categories := [exCat1, exCat2],
    locations := [exLoc1], posts := [exP1, exP2, exP3, exP4],
    comments := [exC1, exC2] }

/-- Fixture store before user 1 creates the scheduled post. -/
def exDb0 : DB := { exDb with posts := [exP1, exP3, exP4] }

/-- Form data of a scheduled post: is_published true, pub_date 100. -/
def exFdX : PostFormData :=
  { title := "X", text := "t", pub_date := 100, location := none,
    category := some 1, image := "", is_published := true }

/-- The post row post_create builds from exFdX for user 1 at time 5
with new id 7. -/
def exPostX : Post :=
  { id := 7, title := "X", text := "t", pub_date := 100, author := 1,
    location := none, category := some 1, image := "",
    is_published := true, created_at := 5 }

/-- Fixture store after the scheduled post is created. -/
def exDbX : DB := { exDb0 with posts := exDb0.posts ++ [exPostX] }

/-- The comment row comment_create builds for user 2 on post 1 at
time 20 with new id 9. -/
def exCNew : Comment :=
  { id := 9, text := "hi", post := 1, created_at := 20, author := 2,
    is_published := true }

/-! Theorems. -/

/-- C1: counterexample. Post exP3 is published, past-dated and has a
null category, so the claimed predicate (category null OR category
published) accepts it and spec_public_visible evaluates true; but the
implemented filter rejects it and the index listing omits it, because
the lookup category__is_published=True never matches a null foreign
key. -/
theorem published_pred_null_category_cex :
    exP3.is_published = true ∧ exP3.pub_date ≤ (10 : Int) ∧ exP3.category = none ∧
    spec_public_visible exDb 10 exP3 = true ∧
    published_post_pred exDb 10 exP3 = false ∧
    exP3 ∈ exDb.posts ∧ exP3 ∉ index_listing exDb Viewer.anonymous 10 := by
  decide

/-- Characterization of the category join condition: it holds iff
the category reference is non-null and resolves to a published row. -/
theorem category_join_published_iff (db : DB) (p : Post) :
    category_join_published db p = true ↔
      ∃ cid cat, p.category = some cid ∧
        db.categories.find? (fun c => c.id == cid) = some cat ∧
        cat.is_published = true := by
  unfold category_join_published
  split
  next h => simp [h]
  next cid h =>
    split
    next hf => simp [h, hf]
    next cat hf => simp [h, hf]

/-- C1 (amended): the public visibility predicate used by the
listings holds iff the post is published, its pub_date is at most
now, and its category reference is non-null and resolves to a
published category; the location reference of the post and the whole
locations table never affect the result. -/
theorem published_post_pred_characterization (db : DB) (now : Int) (p : Post) :
    (published_post_pred db now p = true ↔
      p.is_published = true ∧ p.pub_date ≤ now ∧
        ∃ cid cat, p.category = some cid ∧
          db.categories.find? (fun c => c.id == cid) = some cat ∧
          cat.is_published = true) ∧
    (∀ loc, published_post_pred db now { p with location := loc } =
      published_post_pred db now p) ∧
    (∀ locs, published_post_pred { db with locations := locs } now p =
      published_post_pred db now p) := by
  refine ⟨?_, fun _ => rfl, fun _ => rfl⟩
  unfold published_post_pred
  simp only [Bool.and_eq_true, decide_eq_true_eq, category_join_published_iff, and_assoc]

/-- C2: counterexample. User 1 creates post exPostX with
is_published true and pub_date 100, strictly in the future of now =
50; the claim says the index listing requested by user 1 contains it,
but IndexView applies filter_published_posts for every viewer, so the
author does not see the scheduled post on the index either. -/
theorem index_future_post_author_cex :
    (post_create exDb0 (Viewer.user 1) 5 exFdX 7).snd = exDbX ∧
    exPostX ∈ exDbX.posts ∧ exPostX.author = 1 ∧ exPostX.is_published = true ∧
    (50 : Int) < exPostX.pub_date ∧
    exPostX ∉ index_listing exDbX (Viewer.user 1) 50 := by
  decide

/-- C2 (amended): a post whose pub_date is strictly in the future is
absent from the index listing for every viewer, its author included;
the index listing is the same for all viewers. -/
theorem index_excludes_future_posts (db : DB) (v v2 : Viewer) (now : Int) (p : Post)
    (h : now < p.pub_date) :
    p ∉ index_listing db v now ∧ index_listing db v now = index_listing db v2 now := by
  refine ⟨?_, rfl⟩
  intro hmem
  rw [index_listing, List.mem_insertionSort, filter_published_posts,
    List.mem_filter] at hmem
  have hp := hmem.2
  rw [published_post_pred] at hp
  simp only [Bool.and_eq_true, decide_eq_true_eq] at hp
  exact absurd hp.1.2 (not_le.mpr h)

/-- Witness for C2 at a concrete input: the scheduled post is hidden
from its author on the index, and the listing does not depend on the
viewer. -/
theorem index_excludes_future_posts_witness :
    exPostX ∉ index_listing exDbX (Viewer.user 1) 50 ∧
    index_listing exDbX (Viewer.user 1) 50 = index_listing exDbX Viewer.anonymous 50 :=
  index_excludes_future_posts exDbX (Viewer.user 1) Viewer.anonymous 50 exPostX (by decide)

/-- Helper: a post known to fail the published predicate is not found
in the published-filtered queryset, provided its id is unique. -/
theorem filtered_find_none (db : DB) (now : Int) (pid : Nat) (p : Post)
    (hpred : published_post_pred db now p = false)
    (huniq : ∀ q ∈ db.posts, q.id = pid → q = p) :
    (db.posts.filter (published_post_pred db now)).find? (fun q => q.id == pid) = none := by
  rw [List.find?_eq_none]
  intro x hx hbeq
  rw [List.mem_filter] at hx
  have hxid : x.id = pid := by simpa using hbeq
  have hxp : x = p := huniq x hx.1 hxid
  rw [hxp] at hx
  rw [hx.2] at hpred
  cases hpred

/-- C3: the detail operation is NotFound when no post has the id; it
is NotFound (never a Forbidden outcome) when the post exists but the
published predicate rejects it and the viewer is not its author; and
the authenticated author receives the post whatever its publication
state, date or category. -/
theorem post_detail_access (db : DB) (v : Viewer) (now : Int) (pid : Nat) :
    (findPost db pid = none → post_detail db v now pid = none) ∧
    (∀ p, findPost db pid = some p → viewer_is_author v p = false →
      published_post_pred db now p = false →
      (∀ q ∈ db.posts, q.id = pid → q = p) →
      post_detail db v now pid = none) ∧
    (∀ p uid, findPost db pid = some p → p.author = uid →
      post_detail db (Viewer.user uid) now pid = some p) := by
  refine ⟨?_, ?_, ?_⟩
  · intro h
    cases v with
    | anonymous =>
      show (db.posts.filter (published_post_pred db now)).find? (fun q => q.id == pid) = none
      rw [List.find?_eq_none]
      rw [findPost, List.find?_eq_none] at h
      intro x hx
      exact h x (List.mem_of_mem_filter hx)
    | user uid =>
      unfold post_detail
      rw [h]
  · intro p hfind hauth hpred huniq
    cases v with
    | anonymous =>
      exact filtered_find_none db now pid p hpred huniq
    | user uid =>
      unfold post_detail
      rw [hfind]
      have hb : (p.author == uid) = false := hauth
      show (if (p.author == uid) = true then db.posts.find? (fun q => q.id == pid)
            else (db.posts.filter (published_post_pred db now)).find? (fun q => q.id == pid))
          = none
      rw [if_neg (show ¬((p.author == uid) = true) by simp [hb])]
      exact filtered_find_none db now pid p hpred huniq
  · intro p uid hfind hauthor
    unfold post_detail
    rw [hfind]
    show (if (p.author == uid) = true then db.posts.find? (fun q => q.id == pid)
          else (db.posts.filter (published_post_pred db now)).find? (fun q => q.id == pid))
        = some p
    rw [if_pos (show (p.author == uid) = true by simp [hauthor])]
    exact hfind

/-- Witness for C3 at concrete inputs: id 99 is absent; post 4 is
unpublished and hidden from user 1; post 2 has a future pub_date yet
its author, user 1, receives it. -/
theorem post_detail_access_witness :
    post_detail exDb Viewer.anonymous 10 99 = none ∧
    post_detail exDb (Viewer.user 1) 10 4 = none ∧
    post_detail exDb (Viewer.user 1) 10 2 = some exP2 :=
  ⟨(post_detail_access exDb Viewer.anonymous 10 99).1 (by decide),
   (post_detail_access exDb (Viewer.user 1) 10 4).2.1 exP4 (by decide) (by decide)
     (by decide) (by decide),
   (post_detail_access exDb (Viewer.user 1) 10 2).2.2 exP2 1 (by decide) (by decide)⟩

/-- C4: the category listing is NotFound whenever every category row
carrying the slug is unpublished (in particular when no row carries
it); on success the listing holds exactly the posts of that category
passing the published predicate. -/
theorem category_listing_spec (db : DB) (now : Int) (slug : String) :
    ((∀ c ∈ db.categories, c.slug = slug → c.is_published = false) →
      category_listing db now slug = none) ∧
    (∀ cat l, get_category db slug = some cat → category_listing db now slug = some l →
      ∀ p, p ∈ l ↔ p ∈ db.posts ∧ p.category = some cat.id ∧
        published_post_pred db now p = true) := by
  constructor
  · intro h
    have hg : get_category db slug = none := by
      rw [get_category, List.find?_eq_none]
      intro c hc hcb
      simp only [Bool.and_eq_true, beq_iff_eq] at hcb
      have hfalse := h c hc hcb.2
      rw [hfalse] at hcb
      cases hcb.1
    unfold category_listing
    rw [hg]
  · intro cat l hg hl p
    unfold category_listing at hl
    rw [hg] at hl
    have hl2 : List.insertionSort byNewest
        ((filter_published_posts db now db.posts).filter
          (fun q => q.category == some cat.id)) = l := Option.some.inj hl
    rw [← hl2]
    rw [List.mem_insertionSort, List.mem_filter, filter_published_posts, List.mem_filter]
    simp only [beq_iff_eq]
    tauto

/-- Witness for C4 at concrete inputs: the slug hidden resolves to an
unpublished category and yields NotFound; the slug tech lists exactly
post 1. -/
theorem category_listing_spec_witness :
    category_listing exDb 10 "hidden" = none ∧
    (exP1 ∈ [exP1] ↔ exP1 ∈ exDb.posts ∧ exP1.category = some exCat1.id ∧
      published_post_pred exDb 10 exP1 = true) :=
  ⟨(category_listing_spec exDb 10 "hidden").1 (by decide),
   (category_listing_spec exDb 10 "tech").2 exCat1 [exP1] (by decide) (by decide) exP1⟩

/-- C5: the profile listing is NotFound when no user carries the
username; on success it is sorted newest first, the profile owner
sees every one of their posts whatever the publication state, and any
other viewer sees exactly the posts passing the published
predicate. -/
theorem profile_listing_spec (db : DB) (v : Viewer) (now : Int) (username : String) :
    ((∀ u ∈ db.users, u.username ≠ username) → profile_listing db v now username = none) ∧
    (∀ u l, db.users.find? (fun x => x.username == username) = some u →
      profile_listing db v now username = some l →
      List.Sorted byNewest l ∧
      (viewer_matches v u = true →
        ∀ p, p ∈ l ↔ p ∈ db.posts ∧ p.author = u.id) ∧
      (viewer_matches v u = false →
        ∀ p, p ∈ l ↔ p ∈ db.posts ∧ p.author = u.id ∧
          published_post_pred db now p = true)) := by
  constructor
  · intro h
    have hg : db.users.find? (fun x => x.username == username) = none := by
      rw [List.find?_eq_none]
      intro u hu hub
      exact h u hu (by simpa using hub)
    unfold profile_listing
    rw [hg]
  · intro u l hf hl
    unfold profile_listing at hl
    rw [hf] at hl
    have hl2 : List.insertionSort byNewest
        (if viewer_matches v u = true then db.posts.filter (fun p => p.author == u.id)
         else filter_published_posts db now (db.posts.filter (fun p => p.author == u.id)))
        = l := Option.some.inj hl
    refine ⟨?_, ?_, ?_⟩
    · rw [← hl2]
      exact List.sorted_insertionSort byNewest _
    · intro hm p
      rw [← hl2, if_pos hm]
      rw [List.mem_insertionSort, List.mem_filter]
      simp only [beq_iff_eq]
    · intro hm p
      rw [← hl2, if_neg (by simp [hm])]
      rw [List.mem_insertionSort, filter_published_posts, List.mem_filter, List.mem_filter]
      simp only [beq_iff_eq]
      tauto

/-- Witness for C5 at concrete inputs: an unknown username is
NotFound; user 1 sees all three of their posts, the future and the
null-category ones included, newest first; user 2 sees only the
published past post of user 1. -/
theorem profile_listing_spec_witness :
    profile_listing exDb (Viewer.user 1) 10 "nobody" = none ∧
    (List.Sorted byNewest [exP2, exP1, exP3] ∧
      (viewer_matches (Viewer.user 1) exAlice = true →
        ∀ p, p ∈ [exP2, exP1, exP3] ↔ p ∈ exDb.posts ∧ p.author = exAlice.id) ∧
      (viewer_matches (Viewer.user 1) exAlice = false →
        ∀ p, p ∈ [exP2, exP1, exP3] ↔ p ∈ exDb.posts ∧ p.author = exAlice.id ∧
          published_post_pred exDb 10 p = true)) ∧
    (List.Sorted byNewest [exP1] ∧
      (viewer_matches (Viewer.user 2) exAlice = true →
        ∀ p, p ∈ [exP1] ↔ p ∈ exDb.posts ∧ p.author = exAlice.id) ∧
      (viewer_matches (Viewer.user 2) exAlice = false →
        ∀ p, p ∈ [exP1] ↔ p ∈ exDb.posts ∧ p.author = exAlice.id ∧
          published_post_pred exDb 10 p = true)) :=
  ⟨(profile_listing_spec exDb (Viewer.user 1) 10 "nobody").1 (by decide),
   (profile_listing_spec exDb (Viewer.user 1) 10 "alice").2 exAlice [exP2, exP1, exP3]
     (by decide) (by decide),
   (profile_listing_spec exDb (Viewer.user 2) 10 "alice").2 exAlice [exP1]
     (by decide) (by decide)⟩

/-- C6: counterexample. Post 4 belongs to user 2; authenticated user
1 attempts to delete it and the outcome is the PermissionDenied
(HTTP 403) of the default handle_no_permission, not the redirect to
the post detail page the claim asserts; only the update view
overrides handle_no_permission with that redirect. -/
theorem post_delete_denied_cex :
    (post_delete exDb (Viewer.user 1) 4).fst = MutateOutcome.forbidden ∧
    (post_delete exDb (Viewer.user 1) 4).fst ≠ MutateOutcome.redirectPostDetail 4 := by
  decide

/-- C6 (amended): an anonymous attempt to edit or delete a post is
redirected to login; an authenticated non-author attempting an edit
is redirected to the post detail page, while an authenticated
non-author attempting a delete receives a forbidden outcome; in every
denied case the store is unchanged. -/
theorem post_mutation_denied (db : DB) (pid uid : Nat) (fd : PostFormData) (post : Post)
    (hf : findPost db pid = some post) (hne : post.author ≠ uid) :
    post_update db (Viewer.user uid) pid fd = (MutateOutcome.redirectPostDetail pid, db) ∧
    post_delete db (Viewer.user uid) pid = (MutateOutcome.forbidden, db) ∧
    post_update db Viewer.anonymous pid fd = (MutateOutcome.redirectLogin, db) ∧
    post_delete db Viewer.anonymous pid = (MutateOutcome.redirectLogin, db) := by
  have hb : (post.author == uid) = false := by simp [hne]
  refine ⟨?_, ?_, rfl, rfl⟩
  · simp [post_update, hf, hb]
  · simp [post_delete, hf, hb]

/-- Witness for C6 at a concrete input: user 1 is denied on post 4 of
user 2, with the asymmetric edit and delete outcomes and an unchanged
store. -/
theorem post_mutation_denied_witness :
    post_update exDb (Viewer.user 1) 4 exFdX = (MutateOutcome.redirectPostDetail 4, exDb) ∧
    post_delete exDb (Viewer.user 1) 4 = (MutateOutcome.forbidden, exDb) ∧
    post_update exDb Viewer.anonymous 4 exFdX = (MutateOutcome.redirectLogin, exDb) ∧
    post_delete exDb Viewer.anonymous 4 = (MutateOutcome.redirectLogin, exDb) :=
  post_mutation_denied exDb 4 1 exFdX exP4 (by decide) (by decide)

/-- C7: a successful post creation stores the session user as the
author and succeeds for every submitted form content, and likewise a
comment creation on an existing post; PostFormData and
CommentFormData carry no author field, so the stored author depends
only on the session identity. -/
theorem create_author_from_session (db : DB) (uid : Nat) (now : Int) :
    (∀ fd newId,
      ((post_create db (Viewer.user uid) now fd newId).snd.posts.getLast?).map Post.author
        = some uid ∧
      (post_create db (Viewer.user uid) now fd newId).fst = MutateOutcome.proceed newId) ∧
    (∀ pid fd newId post, findPost db pid = some post →
      ((comment_create db (Viewer.user uid) now pid fd newId).snd.comments.getLast?).map
        Comment.author = some uid ∧
      (comment_create db (Viewer.user uid) now pid fd newId).fst
        = MutateOutcome.proceed newId) := by
  constructor
  · intro fd newId
    refine ⟨?_, rfl⟩
    simp [post_create, List.getLast?_concat]
  · intro pid fd newId post hf
    refine ⟨?_, ?_⟩ <;> simp [comment_create, hf, List.getLast?_concat]

/-- Witness for C7 at concrete inputs: user 2 creates a post and a
comment on post 1; both stored rows carry author 2. -/
theorem create_author_from_session_witness :
    ((post_create exDb (Viewer.user 2) 20 exFdX 9).snd.posts.getLast?).map Post.author
      = some 2 ∧
    ((comment_create exDb (Viewer.user 2) 20 1 (CommentFormData.mk "hi")
        9).snd.comments.getLast?).map Comment.author = some 2 :=
  ⟨((create_author_from_session exDb 2 20).1 exFdX 9).1,
   ((create_author_from_session exDb 2 20).2 1 (CommentFormData.mk "hi") 9 exP1
     (by decide)).1⟩

/-- Helper: a post the detail operation returns carries the requested id. -/
theorem post_detail_returns_id (db : DB) (v : Viewer) (now : Int) (pid : Nat) (p : Post)
    (h : post_detail db v now pid = some p) : p.id = pid := by
  cases v with
  | anonymous =>
    have h2 : (db.posts.filter (published_post_pred db now)).find?
        (fun q => q.id == pid) = some p := h
    simpa using List.find?_some h2
  | user uid =>
    cases hf : findPost db pid with
    | none =>
      unfold post_detail at h
      rw [hf] at h
      cases h
    | some q =>
      unfold post_detail at h
      rw [hf] at h
      have h2 : (if (q.author == uid) = true then db.posts.find? (fun r => r.id == pid)
          else (db.posts.filter (published_post_pred db now)).find? (fun r => r.id == pid))
          = some p := h
      by_cases hb : (q.author == uid) = true
      · rw [if_pos hb] at h2
        simpa using List.find?_some h2
      · rw [if_neg hb] at h2
        simpa using List.find?_some h2

/-- Helper: splitting a detail page result into the resolved post and
its computed comment list. -/
theorem post_detail_page_split (db : DB) (w : Viewer) (now : Int) (pid : Nat)
    (q : Post) (cs : List Comment)
    (hw : post_detail_page db w now pid = some (q, cs)) :
    post_detail db w now pid = some q ∧ cs = detail_comments db q := by
  unfold post_detail_page at hw
  cases hd : post_detail db w now pid with
  | none => rw [hd] at hw; cases hw
  | some r =>
    rw [hd] at hw
    have h12 := Option.some.inj hw
    rw [Prod.mk.injEq] at h12
    obtain ⟨rfl, rfl⟩ := h12
    exact ⟨rfl, rfl⟩


/-- C8: the comment list of a successful detail response holds
exactly the comments of that post with is_published true, ordered by
created_at ascending, and any two viewers who both obtain the detail
page of the same post id at the same time receive the same comment
list. -/
theorem detail_comments_spec (db : DB) (v : Viewer) (now : Int) (pid : Nat)
    (post : Post) (comments : List Comment)
    (h : post_detail_page db v now pid = some (post, comments)) :
    (∀ c, c ∈ comments ↔ c ∈ db.comments ∧ c.post = post.id ∧ c.is_published = true) ∧
    List.Sorted byOldestComment comments ∧
    (∀ v2 p2 cs2, post_detail_page db v2 now pid = some (p2, cs2) → cs2 = comments) := by
  obtain ⟨hpd, hcs⟩ := post_detail_page_split db v now pid post comments h
  have hid : post.id = pid := post_detail_returns_id db v now pid post hpd
  subst hcs
  refine ⟨?_, ?_, ?_⟩
  · intro c
    unfold detail_comments
    rw [List.mem_insertionSort, List.mem_filter]
    simp only [Bool.and_eq_true, beq_iff_eq]
  · exact List.sorted_insertionSort byOldestComment _
  · intro v2 p2 cs2 h2
    obtain ⟨hpd2, hcs2⟩ := post_detail_page_split db v2 now pid p2 cs2 h2
    have hid2 : p2.id = pid := post_detail_returns_id db v2 now pid p2 hpd2
    subst hcs2
    unfold detail_comments
    simp only [hid, hid2]

/-- Witness for C8 at a concrete input: user 2 opens post 1 and the
comment list is exactly the published comment, with the unpublished
one absent, and every other viewer reaching the page sees the same
list. -/
theorem detail_comments_spec_witness :
    (∀ c, c ∈ [exC1] ↔ c ∈ exDb.comments ∧ c.post = exP1.id ∧ c.is_published = true) ∧
    List.Sorted byOldestComment [exC1] ∧
    (∀ v2 p2 cs2, post_detail_page exDb v2 10 1 = some (p2, cs2) → cs2 = [exC1]) :=
  detail_comments_spec exDb (Viewer.user 2) 10 1 exP1 [exC1] (by decide)

/-- Helper: the length of a filtered list splits into the rows also
satisfying a second test and the rows failing it. -/
theorem length_filter_split {α : Type} (P Q : α → Bool) (l : List α) :
    (l.filter P).length =
      (l.filter (fun a => P a && Q a)).length +
      (l.filter (fun a => P a && !Q a)).length := by
  induction l with
  | nil => rfl
  | cons a t ih =>
    cases hP : P a <;> cases hQ : Q a <;>
      simp [List.filter_cons, hP, hQ, ih] <;> omega

/-- C9: every row of the annotated index, category and profile
listings carries a comment_count equal to the exact number of comment
rows referencing the post, which counts both published and
unpublished comments. -/
theorem listing_comment_count_exact (db : DB) (v : Viewer) (now : Int)
    (slug username : String) :
    (∀ pr ∈ index_page db v now, exact_comment_count db pr) ∧
    (∀ l, category_page db now slug = some l → ∀ pr ∈ l, exact_comment_count db pr) ∧
    (∀ l, profile_page db v now username = some l → ∀ pr ∈ l, exact_comment_count db pr) := by
  have hcc : ∀ p : Post, exact_comment_count db (p, comment_count db p) := by
    intro p
    unfold exact_comment_count
    exact ⟨rfl, length_filter_split (fun c : Comment => c.post == p.id)
      (fun c : Comment => c.is_published) db.comments⟩
  refine ⟨?_, ?_, ?_⟩
  · intro pr hpr
    rw [index_page, List.mem_map] at hpr
    obtain ⟨p, _, rfl⟩ := hpr
    exact hcc p
  · intro l hl pr hpr
    unfold category_page at hl
    cases hcl : category_listing db now slug with
    | none => rw [hcl] at hl; cases hl
    | some l0 =>
      rw [hcl] at hl
      have heq : l0.map (fun p => (p, comment_count db p)) = l := Option.some.inj hl
      rw [← heq, List.mem_map] at hpr
      obtain ⟨p, _, rfl⟩ := hpr
      exact hcc p
  · intro l hl pr hpr
    unfold profile_page at hl
    cases hcl : profile_listing db v now username with
    | none => rw [hcl] at hl; cases hl
    | some l0 =>
      rw [hcl] at hl
      have heq : l0.map (fun p => (p, comment_count db p)) = l := Option.some.inj hl
      rw [← heq, List.mem_map] at hpr
      obtain ⟨p, _, rfl⟩ := hpr
      exact hcc p

/-- Witness for C9 at concrete inputs: post 1 is listed with count 2,
one published plus one unpublished comment, on the index, the tech
category page and the profile of user 1 viewed by user 1, where the
future post 2 is listed with count 0. -/
theorem listing_comment_count_exact_witness :
    exact_comment_count exDb (exP1, 2) ∧ exact_comment_count exDb (exP1, 2) ∧
    exact_comment_count exDb (exP2, 0) :=
  ⟨(listing_comment_count_exact exDb (Viewer.user 1) 10 "tech" "alice").1
     (exP1, 2) (by decide),
   (listing_comment_count_exact exDb (Viewer.user 1) 10 "tech" "alice").2.1
     [(exP1, 2)] (by decide) (exP1, 2) (by decide),
   (listing_comment_count_exact exDb (Viewer.user 1) 10 "tech" "alice").2.2
     [(exP2, 0), (exP1, 2), (exP3, 0)] (by decide) (exP2, 0) (by decide)⟩

/-- C10: every comment row added by the comment-create operation has
is_published true: the form carries only text and the model default
fills is_published, so no client input reaches that flag. -/
theorem comment_create_always_published (db : DB) (uid : Nat) (now : Int) (pid : Nat)
    (fd : CommentFormData) (newId : Nat) (c : Comment)
    (hmem : c ∈ (comment_create db (Viewer.user uid) now pid fd newId).snd.comments)
    (hnew : c ∉ db.comments) : c.is_published = true := by
  cases hf : findPost db pid with
  | none =>
    unfold comment_create at hmem
    rw [hf] at hmem
    exact absurd hmem hnew
  | some q =>
    unfold comment_create at hmem
    rw [hf] at hmem
    have h0 : c ∈ db.comments ++
        [{ id := newId, text := fd.text, post := pid, created_at := now,
           author := uid, is_published := true }] := hmem
    rw [List.mem_append, List.mem_singleton] at h0
    cases h0 with
    | inl h => exact absurd h hnew
    | inr h => rw [h]

/-- Witness for C10 at a concrete input: the row user 2 adds to post
1 is stored published. -/
theorem comment_create_always_published_witness : exCNew.is_published = true :=
  comment_create_always_published exDb 2 20 1 (CommentFormData.mk "hi") 9 exCNew
    (by decide) (by decide)

end Blogicum
